import Mathlib

/-!
Shallow embedding of the RollOffIno Raspberry-Pi roll-off-roof INDI driver
(src/rolloffrpi.cpp, src/rolloffrpi.h), restricted to the non-simulation
(`isSimulation() == false`) GPIO paths.  Each definition mirrors the source
function of the same name; the GPIO daemon (pigpiod) is modelled as an
environment of pin reads and pin-write outcomes, and every pin write the
driver attempts is collected in an explicit trace.
-/

namespace RollOffIno

/-- INDI property/light state (IPS_IDLE, IPS_OK, IPS_BUSY, IPS_ALERT). -/
inductive IPS where
  | idle
  | ok
  | busy
  | alert
deriving DecidableEq, Repr

/-- Output relay functions selectable in one output slot
(`outOps`: OPEN, CLOSE, ABORT, LOCK, AUXSET, Unused). -/
inductive OutOp where
  | opn
  | cls
  | abrt
  | lock
  | auxSet
  | unused
deriving DecidableEq, Repr

/-- Input switch functions selectable in one input slot
(`inpOps`: OPENED, CLOSED, LOCKED, AUXSTATE, Unused). -/
inductive InpOp where
  | opened
  | closed
  | locked
  | auxState
  | unused
deriving DecidableEq, Repr

/-- One output definition slot: the selected function switch (ISR_1OFMANY, so at
most one of the six `outFunctionS` switches is on — `none` when none is on),
the GPIO pin number (`outPinNumberN`), the polarity switch pair
(`outActivateWhenS`: `some true` = the High switch is on, `some false` = Low is
on, `none` = neither), and which `outActiveLimitS` duration switch is on. -/
structure OutSlot where
  fn : Option OutOp
  pin : Nat
  activeHigh : Option Bool
  limitIdx : Option (Fin 5)
deriving DecidableEq, Repr

/-- One input definition slot (`inpFunctionS`, `inpPinNumberN`,
`inpActivateWhenS`), same conventions as `OutSlot`. -/
structure InpSlot where
  fn : Option InpOp
  pin : Nat
  activeHigh : Option Bool
deriving DecidableEq, Repr

/-- `activeLimitMilli[] = {100, 250, 500, 750, 0}` — pulse durations in
milliseconds for the five `outActiveLimit` choices (0 = No Limit / held). -/
def activeLimitMilli : Fin 5 → Nat := ![100, 250, 500, 750, 0]

/-- The driver's GPIO configuration: the five output definition slots, the four
input definition slots, and the ROOF_TIMEOUT number (`RoofTimeoutN[0]`). -/
structure Config where
  outDefs : List OutSlot
  inpDefs : List InpSlot
  roofTimeout : Int
deriving DecidableEq, Repr

/-- The pigpiod environment: `readPin p` is the outcome of `gpio_read` on pin
`p` (`none` = PI_BAD_GPIO failure, `some b` = level read, `true` = high);
`writeOk p l` tells whether `gpio_write(p, l)` returns 0 (success). -/
structure Env where
  readPin : Nat → Option Bool
  writeOk : Nat → Bool → Bool

/-- A performed `gpio_write`: pin number and level written (`true` = high). -/
abbrev GpioWrite := Nat × Bool

/-- Relevant dome states of the INDI framework (`setDomeState` targets). -/
inductive DomeSt where
  | unknown
  | idle
  | moving
  | parked
  | unparked
deriving DecidableEq, Repr

/-- Driver-internal state (fields of class RollOffIno, plus the fragment of the
INDI::Dome base state the driver consults: `DomeMotionSP.s == IPS_BUSY`, the
two `DomeMotionS` direction switches, and the parked flag). ISState fields are
Booleans (`true` = ISS_ON). -/
structure DriverState where
  contactEstablished : Bool
  roofOpening : Bool
  roofClosing : Bool
  fullyOpenedLimitSwitch : Bool
  fullyClosedLimitSwitch : Bool
  roofLockedSwitch : Bool
  roofAuxiliarySwitch : Bool
  roofTimedOut : Nat
  limitMsg : Nat
  communicationErrors : Nat
  domeState : DomeSt
  domeMotionBusy : Bool
  domeMotionCW : Bool
  domeMotionCCW : Bool
  motionRequest : Int
  parked : Bool
deriving DecidableEq, Repr

/-- `EXPIRED_CLEAR / EXPIRED_OPEN / EXPIRED_CLOSE` as numbers 0 / 1 / 2,
in enum declaration order. -/
def EXPIRED_CLEAR : Nat := 0

/-- `EXPIRED_OPEN` (timeout while opening). -/
def EXPIRED_OPEN : Nat := 1

/-- `EXPIRED_CLOSE` (timeout while closing). -/
def EXPIRED_CLOSE : Nat := 2

/-- First input slot whose selected function switch matches `id` (the double
loop over `inpFunctionS[i][j]` with break in `readRoofSwitch`). -/
def findInp (cfg : Config) (id : InpOp) : Option InpSlot :=
  cfg.inpDefs.find? (fun s => s.fn == some id)

/-- First output slot whose selected function switch matches `button` (the
double loop over `outFunctionS[i][j]` with break in `pushRoofButton`). -/
def findOut (cfg : Config) (button : OutOp) : Option OutSlot :=
  cfg.outDefs.find? (fun s => s.fn == some button)

/-- `RollOffIno::readRoofSwitch` (non-simulation): resolve the switch id to an
input slot; unmapped OPENED/CLOSED is a failure (`none`), any other unmapped
switch reads as `some false`; otherwise read the pin and apply polarity
(`(activeHigh && high) || (activeLow && low)`).  `none` is the C function
returning false (read failure); `contact` is `contactEstablished`. -/
def readRoofSwitch (cfg : Config) (env : Env) (contact : Bool) (id : InpOp) :
    Option Bool :=
  if !contact then none
  else
    match findInp cfg id with
    | some slot =>
      match env.readPin slot.pin with
      | none => none
      | some v =>
        some ((slot.activeHigh == some true && v) ||
              (slot.activeHigh == some false && !v))
    | none =>
      if id == InpOp.opened || id == InpOp.closed then none
      else some false

/-- `RollOffIno::getFullOpenedLimitSwitch` (non-simulation): wraps
`readRoofSwitch(ROOF_OPENED_SWITCH)`; on success stores the value in
`fullyOpenedLimitSwitch`.  Returns (status, value read, updated state);
on failure the out-parameter holds false and the stored field is untouched. -/
def getFullOpenedLimitSwitch (cfg : Config) (env : Env) (st : DriverState) :
    Bool × Bool × DriverState :=
  match readRoofSwitch cfg env st.contactEstablished InpOp.opened with
  | some v => (true, v, { st with fullyOpenedLimitSwitch := v })
  | none => (false, false, st)

/-- `RollOffIno::getFullClosedLimitSwitch` (non-simulation). -/
def getFullClosedLimitSwitch (cfg : Config) (env : Env) (st : DriverState) :
    Bool × Bool × DriverState :=
  match readRoofSwitch cfg env st.contactEstablished InpOp.closed with
  | some v => (true, v, { st with fullyClosedLimitSwitch := v })
  | none => (false, false, st)

/-- `RollOffIno::getRoofLockedSwitch` (non-simulation). -/
def getRoofLockedSwitch (cfg : Config) (env : Env) (st : DriverState) :
    Bool × Bool × DriverState :=
  match readRoofSwitch cfg env st.contactEstablished InpOp.locked with
  | some v => (true, v, { st with roofLockedSwitch := v })
  | none => (false, false, st)

/-- `RollOffIno::getRoofAuxSwitch` (non-simulation). -/
def getRoofAuxSwitch (cfg : Config) (env : Env) (st : DriverState) :
    Bool × Bool × DriverState :=
  match readRoofSwitch cfg env st.contactEstablished InpOp.auxState with
  | some v => (true, v, { st with roofAuxiliarySwitch := v })
  | none => (false, false, st)

/-- All five roof status lights plus the summary state of `RoofStatusLP`. -/
structure Lights where
  openedL : IPS
  closedL : IPS
  movingL : IPS
  lockedL : IPS
  auxL : IPS
  summary : IPS
deriving DecidableEq, Repr

/-- Message emitted by the repeated-indeterminate throttle in
`updateRoofStatus` (LOG_WARN, LOG_ERROR, or nothing). -/
inductive MsgK where
  | silent
  | warn
  | escalate
deriving DecidableEq, Repr

/-- The `limitMsg` throttle step of `updateRoofStatus` (lines 737-751): when
the indeterminate condition holds, warn while `limitMsg <= 10` (incrementing),
escalate once at `limitMsg == 11` (incrementing), then stay silent; when the
condition does not hold, reset `limitMsg` to 0. -/
def limitStep (m : Nat) (indet : Bool) : Nat × MsgK :=
  if indet then
    if m ≤ 10 then (m + 1, MsgK.warn)
    else if m = 11 then (m + 1, MsgK.escalate)
    else (m, MsgK.silent)
  else (0, MsgK.silent)

/-- The light-setting branches of `updateRoofStatus` (lines 756-830), applied
to the freshly read sensor values and the in-motion flags as they stood when
the branch runs.  All lights start IPS_IDLE; the auxiliary light is IPS_OK when
the aux switch reads true. -/
def statusLights (opened closed locked aux opening closing : Bool)
    (timedOut : Nat) : Lights :=
  let auxIPS := if aux then IPS.ok else IPS.idle
  let base : Lights := ⟨IPS.idle, IPS.idle, IPS.idle, IPS.idle, auxIPS, IPS.idle⟩
  if locked then
    let l1 := { base with lockedL := IPS.alert }
    if closed then { l1 with closedL := IPS.ok, summary := IPS.ok }
    else if opened then { l1 with openedL := IPS.ok, summary := IPS.ok }
    else if opening || closing then
      { l1 with movingL := IPS.alert, summary := IPS.alert }
    else l1
  else if opened || closed then
    if opened && !closed then { base with openedL := IPS.ok, summary := IPS.ok }
    else if closed && !opened then
      { base with closedL := IPS.ok, summary := IPS.ok }
    else base
  else if opening || closing then
    if opening then
      { base with openedL := IPS.busy, movingL := IPS.busy, summary := IPS.busy }
    else
      { base with closedL := IPS.busy, movingL := IPS.busy, summary := IPS.busy }
  else
    if timedOut = 1 then { base with openedL := IPS.alert, summary := IPS.alert }
    else if timedOut = 2 then
      { base with closedL := IPS.alert, summary := IPS.alert }
    else { base with summary := IPS.alert }

/-- `roofOpening` after `updateRoofStatus`: cleared exactly in the unlocked
`openedState && !closedState` branch (line 794). -/
def roofOpeningAfter (opened closed locked opening : Bool) : Bool :=
  if !locked && (opened && !closed) then false else opening

/-- `roofClosing` after `updateRoofStatus`: cleared exactly in the unlocked
`closedState && !openedState` branch (line 800). -/
def roofClosingAfter (opened closed locked closing : Bool) : Bool :=
  if !locked && (closed && !opened) then false else closing

/-- `RollOffIno::updateRoofStatus`: refresh the four switch readings (each
getter stores its value on success), run the indeterminate-condition message
throttle, emit the both-opened-and-closed contradiction warning, compute the
roof status lights, and clear a motion flag on a confirmed terminal sensor.
Result: (new state, lights, throttle message, contradiction warning issued). -/
def updateRoofStatus (cfg : Config) (env : Env) (st : DriverState) :
    DriverState × Lights × MsgK × Bool :=
  let r1 := getFullOpenedLimitSwitch cfg env st
  let r2 := getFullClosedLimitSwitch cfg env r1.2.2
  let r3 := getRoofLockedSwitch cfg env r2.2.2
  let r4 := getRoofAuxSwitch cfg env r3.2.2
  let opened := r1.2.1
  let closed := r2.2.1
  let locked := r3.2.1
  let aux := r4.2.1
  let s0 := r4.2.2
  let indet := !opened && !closed && !s0.roofOpening && !s0.roofClosing
  let lm := (limitStep s0.limitMsg indet).1
  let msg := (limitStep s0.limitMsg indet).2
  let contra := opened && closed
  let lights :=
    statusLights opened closed locked aux s0.roofOpening s0.roofClosing
      s0.roofTimedOut
  ({ s0 with
      limitMsg := lm,
      roofOpening := roofOpeningAfter opened closed locked s0.roofOpening,
      roofClosing := roofClosingAfter opened closed locked s0.roofClosing },
   lights, msg, contra)

/-- `RollOffIno::pushRoofButton`: refuse without contact; read the lock switch
and, unless `ignoreLock`, fail if the read failed or the lock is active; find
the output slot for `button` (unmapped motion relays fail, unmapped optional
relays succeed as no-ops); reject a motion relay whose selected active limit is
No Limit; then write the active level, and for a finite limit sleep and write
the opposite level.  Result: (success, trace of attempted writes, state). -/
def pushRoofButton (cfg : Config) (env : Env) (st : DriverState)
    (button : OutOp) (switchOn ignoreLock : Bool) :
    Bool × List GpioWrite × DriverState :=
  if !st.contactEstablished then (false, [], st)
  else
    let r := getRoofLockedSwitch cfg env st
    let st1 := r.2.2
    if (!r.1 || r.2.1) && !ignoreLock then (false, [], st1)
    else
      let moveFunction :=
        button == OutOp.opn || button == OutOp.cls || button == OutOp.abrt
      match findOut cfg button with
      | none =>
        if moveFunction then (false, [], st1) else (true, [], st1)
      | some slot =>
        let wantHigh :=
          match slot.activeHigh with
          | some true => switchOn
          | some false => !switchOn
          | none => false
        let intervalMilli :=
          match slot.limitIdx with
          | some k => activeLimitMilli k
          | none => 0
        let badLimit :=
          match slot.limitIdx with
          | some k => activeLimitMilli k == 0 && moveFunction
          | none => false
        if badLimit then (false, [], st1)
        else if !(env.writeOk slot.pin wantHigh) then
          (false, [(slot.pin, wantHigh)], st1)
        else if 0 < intervalMilli then
          if !(env.writeOk slot.pin (!wantHigh)) then
            (false, [(slot.pin, wantHigh), (slot.pin, !wantHigh)], st1)
          else (true, [(slot.pin, wantHigh), (slot.pin, !wantHigh)], st1)
        else (true, [(slot.pin, wantHigh)], st1)

/-- `RollOffIno::roofOpen` (non-simulation). -/
def roofOpen (cfg : Config) (env : Env) (st : DriverState) :
    Bool × List GpioWrite × DriverState :=
  pushRoofButton cfg env st OutOp.opn true false

/-- `RollOffIno::roofClose` (non-simulation). -/
def roofClose (cfg : Config) (env : Env) (st : DriverState) :
    Bool × List GpioWrite × DriverState :=
  pushRoofButton cfg env st OutOp.cls true false

/-- `RollOffIno::roofAbort` (non-simulation). -/
def roofAbort (cfg : Config) (env : Env) (st : DriverState) :
    Bool × List GpioWrite × DriverState :=
  pushRoofButton cfg env st OutOp.abrt true false

/-- `RollOffIno::setRoofLock` (non-simulation): lock relay, ignoring the lock
interlock. -/
def setRoofLock (cfg : Config) (env : Env) (st : DriverState) (switchOn : Bool) :
    Bool × List GpioWrite × DriverState :=
  pushRoofButton cfg env st OutOp.lock switchOn true

/-- `RollOffIno::setRoofAux` (non-simulation): auxiliary relay, ignoring the
lock interlock. -/
def setRoofAux (cfg : Config) (env : Env) (st : DriverState) (switchOn : Bool) :
    Bool × List GpioWrite × DriverState :=
  pushRoofButton cfg env st OutOp.auxSet switchOn true

/-- `INDI::Dome::SetParked` as far as the driver state is concerned: records
the parked flag (further framework side effects are outside the core). -/
def setParked (st : DriverState) (b : Bool) : DriverState :=
  { st with parked := b }

/-- Dome motion directions (DOME_CW = open, DOME_CCW = close). -/
inductive DomeDir where
  | cw
  | ccw
deriving DecidableEq, Repr

/-- `RollOffIno::Move` for `operation == MOTION_START` (`isStart = true`; any
other operation falls through to IPS_ALERT): refresh status, reject when
externally locked, accept as a no-op when already opening or closing, reject
open when fully opened / close when fully closed or when the mount parking
policy (`INDI::Dome::isLocked`, modelled as `mountLocked`) objects, otherwise
actuate the relay and on success set the direction flags, clear the timeout
record and arm the motion timer.  Result: (IPState, writes, state). -/
def Move (cfg : Config) (env : Env) (mountLocked : Bool) (st : DriverState)
    (dir : DomeDir) (isStart : Bool) : IPS × List GpioWrite × DriverState :=
  let st1 := (updateRoofStatus cfg env st).1
  if isStart then
    if st1.roofLockedSwitch then (IPS.alert, [], st1)
    else if st1.roofOpening then (IPS.ok, [], st1)
    else if st1.roofClosing then (IPS.ok, [], st1)
    else
      match dir with
      | DomeDir.cw =>
        if st1.fullyOpenedLimitSwitch then (IPS.alert, [], setParked st1 false)
        else
          let r := roofOpen cfg env st1
          if r.1 then
            (IPS.busy, r.2.1,
             { r.2.2 with
                roofOpening := true, roofClosing := false,
                roofTimedOut := EXPIRED_CLEAR,
                motionRequest := cfg.roofTimeout })
          else (IPS.alert, r.2.1, r.2.2)
      | DomeDir.ccw =>
        if st1.fullyClosedLimitSwitch then (IPS.alert, [], setParked st1 true)
        else if mountLocked then (IPS.alert, [], st1)
        else
          let r := roofClose cfg env st1
          if r.1 then
            (IPS.busy, r.2.1,
             { r.2.2 with
                roofClosing := true, roofOpening := false,
                roofTimedOut := EXPIRED_CLEAR,
                motionRequest := cfg.roofTimeout })
          else (IPS.alert, r.2.1, r.2.2)
  else (IPS.alert, [], st1)

/-- `RollOffIno::Abort`: refresh status; when locked, or stationary (motion
property not busy), take no action; when a motion is busy, clear both motion
flags, mark the motion request cancelled (-1) and fire the abort relay.  The
function always reports success.  Result: (true, writes, state). -/
def Abort (cfg : Config) (env : Env) (st : DriverState) :
    Bool × List GpioWrite × DriverState :=
  let st1 := (updateRoofStatus cfg env st).1
  if st1.roofLockedSwitch then (true, [], st1)
  else if st1.fullyClosedLimitSwitch && !st1.domeMotionBusy then (true, [], st1)
  else if st1.fullyOpenedLimitSwitch && !st1.domeMotionBusy then (true, [], st1)
  else if !st1.domeMotionBusy then (true, [], st1)
  else
    let st2 :=
      { st1 with roofClosing := false, roofOpening := false, motionRequest := -1 }
    let r := roofAbort cfg env st2
    (true, r.2.1, r.2.2)

/-- The forced-reconnect branch of `TimerHit` (lines 918-925):
`INDI::Dome::Disconnect(); initProperties(); communicationErrors = 0;` —
as far as the driver-internal counter is concerned, the counter is reset. -/
def reconnectReset (st : DriverState) : DriverState :=
  { st with communicationErrors := 0 }

/-- `MAX_CNTRL_COM_ERR` — communication-error threshold. -/
def MAX_CNTRL_COM_ERR : Nat := 10

/-- `RollOffIno::TimerHit` (non-simulation): when connected, refresh the roof
status, then — if a dome motion is busy — handle abort-stop (negative motion
request), completion on a terminal sensor, or timeout expiry
(`timeleft <= 0`), choosing the active 500 ms poll only while still moving;
finally force the reconnect cycle when the communication-error counter exceeds
`MAX_CNTRL_COM_ERR`.  Result: (state, next timer delay in ms, the status
refresh outputs; `none` when not connected, where the C function returns at
once). -/
def TimerHit (cfg : Config) (env : Env) (st : DriverState) (timeleft : Int)
    (connected : Bool) : DriverState × Nat × Option (Lights × MsgK × Bool) :=
  if !connected then (st, 0, none)
  else
    let u := updateRoofStatus cfg env st
    let st1 := u.1
    let step :=
      if st1.domeMotionBusy then
        if st1.motionRequest < 0 then
          ({ st1 with domeState := DomeSt.idle }, (1000 : Nat))
        else if st1.domeMotionCW then
          if st1.fullyOpenedLimitSwitch then (setParked st1 false, 1000)
          else if timeleft ≤ 0 then
            ({ st1 with
                domeState := DomeSt.idle, roofOpening := false,
                roofTimedOut := EXPIRED_OPEN }, 1000)
          else (st1, 500)
        else if st1.domeMotionCCW then
          if st1.fullyClosedLimitSwitch then (setParked st1 true, 1000)
          else if timeleft ≤ 0 then
            ({ st1 with
                domeState := DomeSt.idle, roofClosing := false,
                roofTimedOut := EXPIRED_CLOSE }, 1000)
          else (st1, 500)
        else (st1, 1000)
      else (st1, 1000)
    let st2 := step.1
    let st3 :=
      if MAX_CNTRL_COM_ERR < st2.communicationErrors then reconnectReset st2
      else st2
    (st3, step.2, some u.2)

/-- Whether an output slot contributes to the `required` count in
`RollOffIno::gpioPinSet` (lines 498-500): a selected OPEN or CLOSE relay whose
GPIO pin number is greater than 2. -/
def outSlotRequired (s : OutSlot) : Bool :=
  (s.fn == some OutOp.opn || s.fn == some OutOp.cls) && 2 < s.pin

/-- Whether an input slot contributes to the `required` count in
`RollOffIno::gpioPinSet` (lines 560-562): a selected OPENED or CLOSED switch
whose GPIO pin number is greater than 2. -/
def inpSlotRequired (s : InpSlot) : Bool :=
  (s.fn == some InpOp.opened || s.fn == some InpOp.closed) && 2 < s.pin

/-- The `required` accumulation of `RollOffIno::gpioPinSet` over the output
slots: slots with no function switch on or with Unused selected are skipped,
the rest bump the count per `outSlotRequired` (the count is accumulated before
any pin-mode call, so it does not depend on GPIO errors). -/
def gpioOutRequired (l : List OutSlot) (acc : Nat) : Nat :=
  match l with
  | [] => acc
  | s :: rest =>
    match s.fn with
    | none => gpioOutRequired rest acc
    | some f =>
      if f == OutOp.unused then gpioOutRequired rest acc
      else gpioOutRequired rest (acc + if outSlotRequired s then 1 else 0)

/-- The `required` accumulation of `RollOffIno::gpioPinSet` over the input
slots. -/
def gpioInpRequired (l : List InpSlot) (acc : Nat) : Nat :=
  match l with
  | [] => acc
  | s :: rest =>
    match s.fn with
    | none => gpioInpRequired rest acc
    | some f =>
      if f == InpOp.unused then gpioInpRequired rest acc
      else gpioInpRequired rest (acc + if inpSlotRequired s then 1 else 0)

/-- The configuration-validation outcome of `RollOffIno::gpioPinSet`: the final
`required` count, and whether the configuration error
("definitions must include relays OPEN, CLOSE, and switches OPENED, CLOSED")
is logged, i.e. `required < 4` (line 597).  The pin-mode, pull-resistor and
relay-off writes it also performs concern no claim and are omitted. -/
def gpioPinSet (cfg : Config) : Nat × Bool :=
  let req := gpioInpRequired cfg.inpDefs (gpioOutRequired cfg.outDefs 0)
  (req, req < 4)

/-- Number of output slots whose selected function is `f`. -/
def outCountFn (cfg : Config) (f : OutOp) : Nat :=
  cfg.outDefs.countP (fun s => s.fn == some f)

/-- Number of input slots whose selected function is `f`. -/
def inpCountFn (cfg : Config) (f : InpOp) : Nat :=
  cfg.inpDefs.countP (fun s => s.fn == some f)

/-- Follows the spec invariant (§3): at most one slot maps to any given
logical function, within the output slots and within the input slots. -/
def specUniqueB (cfg : Config) : Bool :=
  [OutOp.opn, OutOp.cls, OutOp.abrt, OutOp.lock, OutOp.auxSet].all
    (fun f => outCountFn cfg f ≤ 1) &&
  [InpOp.opened, InpOp.closed, InpOp.locked, InpOp.auxState].all
    (fun f => inpCountFn cfg f ≤ 1)

/-- Follows the spec invariant (§3): the four mandatory functions open, close,
opened-sensor, closed-sensor are all mapped. -/
def specMandatoryB (cfg : Config) : Bool :=
  (1 ≤ outCountFn cfg OutOp.opn) && (1 ≤ outCountFn cfg OutOp.cls) &&
  (1 ≤ inpCountFn cfg InpOp.opened) && (1 ≤ inpCountFn cfg InpOp.closed)

/-- The four mandatory functions are each mapped by a slot that `gpioPinSet`
counts (pin number greater than 2). -/
def mandatoryPinsB (cfg : Config) : Bool :=
  cfg.outDefs.any (fun s => s.fn == some OutOp.opn && 2 < s.pin) &&
  cfg.outDefs.any (fun s => s.fn == some OutOp.cls && 2 < s.pin) &&
  cfg.inpDefs.any (fun s => s.fn == some InpOp.opened && 2 < s.pin) &&
  cfg.inpDefs.any (fun s => s.fn == some InpOp.closed && 2 < s.pin)

/-- Value a sensor read yields for the local state variables of
`updateRoofStatus`: the read value on success, false on failure (each local is
initialised false and a failing getter leaves it so). -/
def rsv (cfg : Config) (env : Env) (contact : Bool) (id : InpOp) : Bool :=
  (readRoofSwitch cfg env contact id).getD false

/-- The indeterminate condition of `updateRoofStatus` (line 737): neither
terminal sensor reads true and neither motion flag is set. -/
def indetCond (cfg : Config) (env : Env) (st : DriverState) : Bool :=
  !(rsv cfg env st.contactEstablished InpOp.opened) &&
  !(rsv cfg env st.contactEstablished InpOp.closed) &&
  !st.roofOpening && !st.roofClosing

/-- `n` consecutive status-refresh ticks (`updateRoofStatus` applied `n` times,
keeping the state component). -/
def statusIter (cfg : Config) (env : Env) : Nat → DriverState → DriverState
  | 0, st => st
  | n + 1, st => (updateRoofStatus cfg env (statusIter cfg env n st)).1

/-- Rest (relay off) level of an output pin for a given polarity setting, as
`gpioPinSet` writes it when initialising the relays (lines 534-541): low for
an active-High relay, high otherwise. -/
def restLevel (activeHigh : Option Bool) : Bool :=
  match activeHigh with
  | some true => false
  | _ => true

/-- The first level `pushRoofButton` writes (`wantHigh`, lines 1363-1367): the
requested on/off for an active-High relay, its negation for active-Low, false
when no polarity switch is on. -/
def pulseFirstLevel (activeHigh : Option Bool) (switchOn : Bool) : Bool :=
  match activeHigh with
  | some true => switchOn
  | some false => !switchOn
  | none => false

/-- Driver state right after a successful `Connect()`: the field initialisers
of class RollOffIno (header lines 73-102: flags false, switches ISS_OFF,
counters 0) with `contactEstablished` set by `Connect`. -/
def initState : DriverState where
  contactEstablished := true
  roofOpening := false
  roofClosing := false
  fullyOpenedLimitSwitch := false
  fullyClosedLimitSwitch := false
  roofLockedSwitch := false
  roofAuxiliarySwitch := false
  roofTimedOut := 0
  limitMsg := 0
  communicationErrors := 0
  domeState := DomeSt.unknown
  domeMotionBusy := false
  domeMotionCW := false
  domeMotionCCW := false
  motionRequest := 0
  parked := false

/-- Driver states reachable from the post-connect initial state through the
driver entry points (status refresh, Move, Abort, timer ticks, and any relay
push — which covers the lock/aux toggles and the internal roofOpen /
roofClose / roofAbort calls). -/
inductive Reachable : DriverState → Prop where
  | init : Reachable initState
  | status (cfg : Config) (env : Env) (st : DriverState) :
      Reachable st → Reachable (updateRoofStatus cfg env st).1
  | move (cfg : Config) (env : Env) (mountLocked : Bool) (st : DriverState)
      (dir : DomeDir) (isStart : Bool) :
      Reachable st → Reachable (Move cfg env mountLocked st dir isStart).2.2
  | abortReq (cfg : Config) (env : Env) (st : DriverState) :
      Reachable st → Reachable (Abort cfg env st).2.2
  | timer (cfg : Config) (env : Env) (st : DriverState) (timeleft : Int)
      (connected : Bool) :
      Reachable st → Reachable (TimerHit cfg env st timeleft connected).1
  | push (cfg : Config) (env : Env) (st : DriverState) (button : OutOp)
      (switchOn ignoreLock : Bool) :
      Reachable st →
      Reachable (pushRoofButton cfg env st button switchOn ignoreLock).2.2

/-! Helper lemmas characterising the state transformers. -/

/-- `updateRoofStatus` in closed form: the four stored switch fields take the
read values when the reads succeed, the throttle counter steps per
`limitStep`, the motion flags are cleared per the confirmed-terminal branches,
and the outputs are `statusLights`, the throttle message and the
contradiction flag computed from the read values. -/
theorem updateRoofStatus_eq (cfg : Config) (env : Env) (st : DriverState) :
    updateRoofStatus cfg env st =
      ({ st with
          fullyOpenedLimitSwitch :=
            (readRoofSwitch cfg env st.contactEstablished InpOp.opened).getD
              st.fullyOpenedLimitSwitch,
          fullyClosedLimitSwitch :=
            (readRoofSwitch cfg env st.contactEstablished InpOp.closed).getD
              st.fullyClosedLimitSwitch,
          roofLockedSwitch :=
            (readRoofSwitch cfg env st.contactEstablished InpOp.locked).getD
              st.roofLockedSwitch,
          roofAuxiliarySwitch :=
            (readRoofSwitch cfg env st.contactEstablished InpOp.auxState).getD
              st.roofAuxiliarySwitch,
          limitMsg := (limitStep st.limitMsg (indetCond cfg env st)).1,
          roofOpening :=
            roofOpeningAfter (rsv cfg env st.contactEstablished InpOp.opened)
              (rsv cfg env st.contactEstablished InpOp.closed)
              (rsv cfg env st.contactEstablished InpOp.locked) st.roofOpening,
          roofClosing :=
            roofClosingAfter (rsv cfg env st.contactEstablished InpOp.opened)
              (rsv cfg env st.contactEstablished InpOp.closed)
              (rsv cfg env st.contactEstablished InpOp.locked) st.roofClosing },
       statusLights (rsv cfg env st.contactEstablished InpOp.opened)
         (rsv cfg env st.contactEstablished InpOp.closed)
         (rsv cfg env st.contactEstablished InpOp.locked)
         (rsv cfg env st.contactEstablished InpOp.auxState)
         st.roofOpening st.roofClosing st.roofTimedOut,
       (limitStep st.limitMsg (indetCond cfg env st)).2,
       rsv cfg env st.contactEstablished InpOp.opened &&
         rsv cfg env st.contactEstablished InpOp.closed) := by
  rcases h1 : readRoofSwitch cfg env st.contactEstablished InpOp.opened with _ | v1 <;>
    rcases h2 : readRoofSwitch cfg env st.contactEstablished InpOp.closed with _ | v2 <;>
      rcases h3 : readRoofSwitch cfg env st.contactEstablished InpOp.locked with _ | v3 <;>
        rcases h4 : readRoofSwitch cfg env st.contactEstablished InpOp.auxState with _ | v4 <;>
          simp [updateRoofStatus, getFullOpenedLimitSwitch,
            getFullClosedLimitSwitch, getRoofLockedSwitch, getRoofAuxSwitch,
            rsv, indetCond, h1, h2, h3, h4]

/-- The state returned by `pushRoofButton`: the stored lock-switch field is
refreshed by the initial lock read (when contact is established and the read
succeeds); no other field changes. -/
theorem pushRoofButton_state (cfg : Config) (env : Env) (st : DriverState)
    (button : OutOp) (switchOn ignoreLock : Bool) :
    (pushRoofButton cfg env st button switchOn ignoreLock).2.2 =
      (if st.contactEstablished then
        match readRoofSwitch cfg env st.contactEstablished InpOp.locked with
        | some v => { st with roofLockedSwitch := v }
        | none => st
      else st) := by
  cases hc : st.contactEstablished
  · simp [pushRoofButton, hc]
  · rcases h : readRoofSwitch cfg env st.contactEstablished InpOp.locked
      with _ | v
    all_goals
      rw [hc] at h
      simp only [pushRoofButton, getRoofLockedSwitch, hc, h]
      repeat' split
      all_goals simp_all

/-- `updateRoofStatus` leaves the communication-error counter unchanged. -/
theorem updateRoofStatus_comm (cfg : Config) (env : Env) (st : DriverState) :
    (updateRoofStatus cfg env st).1.communicationErrors =
      st.communicationErrors := by
  rw [updateRoofStatus_eq]

/-- `updateRoofStatus` leaves `contactEstablished` unchanged. -/
theorem updateRoofStatus_contact (cfg : Config) (env : Env) (st : DriverState) :
    (updateRoofStatus cfg env st).1.contactEstablished =
      st.contactEstablished := by
  rw [updateRoofStatus_eq]

/-- `updateRoofStatus` leaves the recorded timeout direction unchanged. -/
theorem updateRoofStatus_timedOut (cfg : Config) (env : Env) (st : DriverState) :
    (updateRoofStatus cfg env st).1.roofTimedOut = st.roofTimedOut := by
  rw [updateRoofStatus_eq]

/-- `updateRoofStatus` can only clear `roofOpening`, never set it. -/
theorem updateRoofStatus_opening_mono (cfg : Config) (env : Env)
    (st : DriverState) :
    (updateRoofStatus cfg env st).1.roofOpening = true →
      st.roofOpening = true := by
  rw [updateRoofStatus_eq]
  simp only [roofOpeningAfter]
  split <;> simp

/-- `updateRoofStatus` can only clear `roofClosing`, never set it. -/
theorem updateRoofStatus_closing_mono (cfg : Config) (env : Env)
    (st : DriverState) :
    (updateRoofStatus cfg env st).1.roofClosing = true →
      st.roofClosing = true := by
  rw [updateRoofStatus_eq]
  simp only [roofClosingAfter]
  split <;> simp

/-- `pushRoofButton` leaves the communication-error counter unchanged. -/
theorem pushRoofButton_comm (cfg : Config) (env : Env) (st : DriverState)
    (button : OutOp) (switchOn ignoreLock : Bool) :
    (pushRoofButton cfg env st button switchOn ignoreLock).2.2.communicationErrors =
      st.communicationErrors := by
  rw [pushRoofButton_state]
  repeat' split
  all_goals rfl

/-- `pushRoofButton` leaves `roofOpening` unchanged. -/
theorem pushRoofButton_opening (cfg : Config) (env : Env) (st : DriverState)
    (button : OutOp) (switchOn ignoreLock : Bool) :
    (pushRoofButton cfg env st button switchOn ignoreLock).2.2.roofOpening =
      st.roofOpening := by
  rw [pushRoofButton_state]
  repeat' split
  all_goals rfl

/-- `pushRoofButton` leaves `roofClosing` unchanged. -/
theorem pushRoofButton_closing (cfg : Config) (env : Env) (st : DriverState)
    (button : OutOp) (switchOn ignoreLock : Bool) :
    (pushRoofButton cfg env st button switchOn ignoreLock).2.2.roofClosing =
      st.roofClosing := by
  rw [pushRoofButton_state]
  repeat' split
  all_goals rfl

/-! Concrete fixtures used by witnesses and counterexamples. -/

/-- A fully populated, well-formed GPIO configuration: the five relays on pins
17-21 (motion relays pulsed 100/250 ms, lock and aux held), the four switches
on pins 5-8, all active-High, 15 s motion timeout. -/
def cfgStd : Config where
  outDefs := [⟨some OutOp.opn, 17, some true, some 0⟩,
              ⟨some OutOp.cls, 18, some true, some 1⟩,
              ⟨some OutOp.abrt, 19, some true, some 0⟩,
              ⟨some OutOp.lock, 20, some true, some 4⟩,
              ⟨some OutOp.auxSet, 21, some true, some 4⟩]
  inpDefs := [⟨some InpOp.opened, 5, some true⟩,
              ⟨some InpOp.closed, 6, some true⟩,
              ⟨some InpOp.locked, 7, some true⟩,
              ⟨some InpOp.auxState, 8, some true⟩]
  roofTimeout := 15

/-- Environment where every pin reads low and every write succeeds. -/
def envAllOff : Env where
  readPin := fun _ => some false
  writeOk := fun _ _ => true

/-- Environment where only the lock switch pin (7) reads high. -/
def envLockOn : Env where
  readPin := fun p => if p = 7 then some true else some false
  writeOk := fun _ _ => true

/-- Environment where both terminal sensor pins (5 and 6) read high. -/
def envBothOn : Env where
  readPin := fun p => if p = 5 ∨ p = 6 then some true else some false
  writeOk := fun _ _ => true

/-- Environment where every write fails (pigpiod rejects `gpio_write`). -/
def envWriteFail : Env where
  readPin := fun _ => some false
  writeOk := fun _ _ => false

/-! The claims. -/

/-- C1: an actuation with `ignoreLock = false` whose lock-sensor read fails or
reads active fails without performing any GPIO write, and a Move request while
the stored lock-sensor state is active is rejected (IPS_ALERT) without any
relay write. -/
theorem c1_lock_interlock (cfg : Config) (env : Env) :
    (∀ (st : DriverState) (button : OutOp) (switchOn : Bool),
      (readRoofSwitch cfg env st.contactEstablished InpOp.locked = none ∨
       readRoofSwitch cfg env st.contactEstablished InpOp.locked = some true) →
      (pushRoofButton cfg env st button switchOn false).1 = false ∧
      (pushRoofButton cfg env st button switchOn false).2.1 = []) ∧
    (∀ (st : DriverState) (mountLocked : Bool) (dir : DomeDir) (isStart : Bool),
      (updateRoofStatus cfg env st).1.roofLockedSwitch = true →
      (Move cfg env mountLocked st dir isStart).1 = IPS.alert ∧
      (Move cfg env mountLocked st dir isStart).2.1 = []) := by
  constructor
  · intro st button switchOn h
    cases hc : st.contactEstablished
    · simp [pushRoofButton, hc]
    · rcases h with h | h <;> rw [hc] at h <;>
        simp [pushRoofButton, getRoofLockedSwitch, hc, h]
  · intro st mountLocked dir isStart hlk
    cases isStart <;> simp [Move, hlk]

/-- C1 witness: with the lock switch reading active, an open-relay push fails
with no write and an open Move request is rejected with no write. -/
theorem c1_witness :
    ((pushRoofButton cfgStd envLockOn initState OutOp.opn true false).1 = false ∧
     (pushRoofButton cfgStd envLockOn initState OutOp.opn true false).2.1 = []) ∧
    ((Move cfgStd envLockOn false initState DomeDir.cw true).1 = IPS.alert ∧
     (Move cfgStd envLockOn false initState DomeDir.cw true).2.1 = []) := by
  refine ⟨(c1_lock_interlock cfgStd envLockOn).1 initState OutOp.opn true
      (Or.inr (by decide)),
    (c1_lock_interlock cfgStd envLockOn).2 initState false DomeDir.cw true
      (by decide)⟩

/-- C2 counterexample: a failed GPIO write (the open-relay actuation attempts
the write `(17, high)` and fails) leaves the consecutive-communication-error
counter unchanged at 0 — the claim that the counter is incremented on every
failed pin operation is false of this driver. -/
theorem c2_counterexample :
    (pushRoofButton cfgStd envWriteFail initState OutOp.opn true false).1 =
        false ∧
    (pushRoofButton cfgStd envWriteFail initState OutOp.opn true false).2.1 =
        [(17, true)] ∧
    (pushRoofButton cfgStd envWriteFail initState OutOp.opn true
        false).2.2.communicationErrors = initState.communicationErrors := by
  decide

/-- C2 amended: no driver operation ever increments the
communication-error counter — failed pin reads and writes leave it unchanged —
and the only place it changes is the `TimerHit` threshold check, which resets
it to 0 (with a forced disconnect/re-initialisation) exactly when it exceeds
`MAX_CNTRL_COM_ERR` on a connected tick. -/
theorem c2_amended (cfg : Config) (env : Env) (st : DriverState)
    (button : OutOp) (switchOn ignoreLock mountLocked : Bool) (dir : DomeDir)
    (isStart : Bool) (timeleft : Int) (connected : Bool) :
    (pushRoofButton cfg env st button switchOn
        ignoreLock).2.2.communicationErrors = st.communicationErrors ∧
    (updateRoofStatus cfg env st).1.communicationErrors =
        st.communicationErrors ∧
    (Move cfg env mountLocked st dir isStart).2.2.communicationErrors =
        st.communicationErrors ∧
    (Abort cfg env st).2.2.communicationErrors = st.communicationErrors ∧
    (TimerHit cfg env st timeleft connected).1.communicationErrors =
      (if connected = true ∧ MAX_CNTRL_COM_ERR < st.communicationErrors then 0
       else st.communicationErrors) := by
  refine ⟨pushRoofButton_comm .., updateRoofStatus_comm .., ?_, ?_, ?_⟩
  · simp only [Move, roofOpen, roofClose]
    repeat' split
    all_goals
      simp [setParked, pushRoofButton_comm, updateRoofStatus_comm]
  · simp only [Abort, roofAbort]
    repeat' split
    all_goals
      simp [pushRoofButton_comm, updateRoofStatus_comm]
  · cases connected
    · simp [TimerHit]
    · simp only [TimerHit, Bool.not_true, MAX_CNTRL_COM_ERR]
      repeat' split
      all_goals
        simp_all [setParked, reconnectReset, updateRoofStatus_comm,
          MAX_CNTRL_COM_ERR]

/-- A lock relay on pin 20, active-High, with a finite 100 ms pulse limit. -/
def cfgPulseLock : Config where
  outDefs := [⟨some OutOp.lock, 20, some true, some 0⟩]
  inpDefs := []
  roofTimeout := 15

/-- C3 counterexample: a successful pulsed actuation of an active-High relay
with `turnOn = false` (lock relay, 100 ms pulse) writes low then high, leaving
the pin at the high = active level, not at its rest level (which for
active-High is low) — the claim fails for the `turnOn = false` half of its
polarity × on/off quantification. -/
theorem c3_counterexample :
    (setRoofLock cfgPulseLock envAllOff initState false).1 = true ∧
    (setRoofLock cfgPulseLock envAllOff initState false).2.1 =
      [(20, false), (20, true)] ∧
    restLevel (some true) = false := by
  decide

/-- C3 amended: a successful pulsed actuation (finite configured limit) writes
the level `pulseFirstLevel` and then its negation, so the pin is left at the
opposite of the first written level; that final level is the rest (inactive)
level exactly when the requested value `switchOn` is true — for
`switchOn = false` the pulse ends at the active level. -/
theorem c3_amended (cfg : Config) (env : Env) (st : DriverState)
    (button : OutOp) (switchOn ignoreLock : Bool) (slot : OutSlot) (k : Fin 5)
    (hs : findOut cfg button = some slot) (hk : slot.limitIdx = some k)
    (hkpos : 0 < activeLimitMilli k)
    (hok : (pushRoofButton cfg env st button switchOn ignoreLock).1 = true) :
    (pushRoofButton cfg env st button switchOn ignoreLock).2.1 =
      [(slot.pin, pulseFirstLevel slot.activeHigh switchOn),
       (slot.pin, !pulseFirstLevel slot.activeHigh switchOn)] ∧
    (switchOn = true →
      (!pulseFirstLevel slot.activeHigh switchOn) = restLevel slot.activeHigh) := by
  have hkz : (activeLimitMilli k == 0) = false := by
    simp only [beq_eq_false_iff_ne, ne_eq]
    omega
  constructor
  · revert hok
    simp only [pushRoofButton, hs, hk, hkz, pulseFirstLevel, Bool.false_and]
    repeat' split
    all_goals simp_all
  · intro h
    subst h
    rcases slot.activeHigh with _ | b
    · simp [pulseFirstLevel, restLevel]
    · cases b <;> simp [pulseFirstLevel, restLevel]

/-- C3 witness: a successful pulsed open actuation (active-High, 100 ms,
`switchOn = true`) writes high then low, ending at the rest level. -/
theorem c3_witness :
    (pushRoofButton cfgStd envAllOff initState OutOp.opn true false).2.1 =
      [(17, true), (17, false)] ∧ restLevel (some true) = false := by
  have h := c3_amended cfgStd envAllOff initState OutOp.opn true false
    ⟨some OutOp.opn, 17, some true, some 0⟩ 0 (by decide) (by decide)
    (by decide) (by decide)
  exact ⟨by simpa [pulseFirstLevel] using h.1, by decide⟩

/-- C4: operations on unmapped functions — reading an unmapped mandatory
sensor (OPENED or CLOSED) fails; reading an unmapped optional sensor (LOCKED
or AUXSTATE) succeeds with value false; pushing an unmapped LOCK or AUXSET
relay succeeds as a no-op without any pin write; and an Abort with no ABORT
relay configured reports success and performs no pin write. -/
theorem c4_unmapped (cfg : Config) (env : Env) :
    (∀ contact : Bool, findInp cfg InpOp.opened = none →
      readRoofSwitch cfg env contact InpOp.opened = none) ∧
    (∀ contact : Bool, findInp cfg InpOp.closed = none →
      readRoofSwitch cfg env contact InpOp.closed = none) ∧
    (findInp cfg InpOp.locked = none →
      readRoofSwitch cfg env true InpOp.locked = some false) ∧
    (findInp cfg InpOp.auxState = none →
      readRoofSwitch cfg env true InpOp.auxState = some false) ∧
    (∀ (st : DriverState) (switchOn : Bool), st.contactEstablished = true →
      findOut cfg OutOp.lock = none →
      (setRoofLock cfg env st switchOn).1 = true ∧
      (setRoofLock cfg env st switchOn).2.1 = []) ∧
    (∀ (st : DriverState) (switchOn : Bool), st.contactEstablished = true →
      findOut cfg OutOp.auxSet = none →
      (setRoofAux cfg env st switchOn).1 = true ∧
      (setRoofAux cfg env st switchOn).2.1 = []) ∧
    (∀ st : DriverState, findOut cfg OutOp.abrt = none →
      (Abort cfg env st).1 = true ∧ (Abort cfg env st).2.1 = []) := by
  refine ⟨?_, ?_, ?_, ?_, ?_, ?_, ?_⟩
  · intro contact h
    cases contact <;> simp [readRoofSwitch, h]
  · intro contact h
    cases contact <;> simp [readRoofSwitch, h]
  · intro h
    simp [readRoofSwitch, h]
  · intro h
    simp [readRoofSwitch, h]
  · intro st switchOn hc h
    rcases hr : readRoofSwitch cfg env st.contactEstablished InpOp.locked
      with _ | v <;>
      simp [setRoofLock, pushRoofButton, getRoofLockedSwitch, hc, hr, h]
  · intro st switchOn hc h
    rcases hr : readRoofSwitch cfg env st.contactEstablished InpOp.locked
      with _ | v <;>
      simp [setRoofAux, pushRoofButton, getRoofLockedSwitch, hc, hr, h]
  · intro st h
    simp only [Abort]
    repeat' split
    all_goals
      constructor
      · rfl
      · simp only [roofAbort, pushRoofButton, getRoofLockedSwitch, h]
        repeat' split
        all_goals simp_all

/-- A configuration with no GPIO functions mapped at all. -/
def cfgEmpty : Config where
  outDefs := []
  inpDefs := []
  roofTimeout := 15

/-- C4 witness: with nothing mapped, the mandatory sensor reads fail, the
optional sensor reads give false, the lock relay push is a successful no-op,
and Abort succeeds with no write. -/
theorem c4_witness :
    readRoofSwitch cfgEmpty envAllOff true InpOp.opened = none ∧
    readRoofSwitch cfgEmpty envAllOff true InpOp.locked = some false ∧
    ((setRoofLock cfgEmpty envAllOff initState true).1 = true ∧
     (setRoofLock cfgEmpty envAllOff initState true).2.1 = []) ∧
    ((Abort cfgEmpty envAllOff initState).1 = true ∧
     (Abort cfgEmpty envAllOff initState).2.1 = []) := by
  refine ⟨(c4_unmapped cfgEmpty envAllOff).1 true (by decide),
    (c4_unmapped cfgEmpty envAllOff).2.2.1 (by decide),
    (c4_unmapped cfgEmpty envAllOff).2.2.2.2.1 initState true rfl (by decide),
    (c4_unmapped cfgEmpty envAllOff).2.2.2.2.2.2 initState (by decide)⟩

/-- The output-slot `required` accumulation equals a `countP`. -/
theorem gpioOutRequired_eq (l : List OutSlot) (acc : Nat) :
    gpioOutRequired l acc = acc + l.countP outSlotRequired := by
  induction l generalizing acc with
  | nil => simp [gpioOutRequired]
  | cons s rest ih =>
    rcases hf : s.fn with _ | f
    · have hr : outSlotRequired s = false := by
        simp [outSlotRequired, hf]
      simp [gpioOutRequired, hf, ih, List.countP_cons, hr]
    · cases f <;>
        simp [gpioOutRequired, hf, ih, List.countP_cons, outSlotRequired] <;>
        omega

/-- The input-slot `required` accumulation equals a `countP`. -/
theorem gpioInpRequired_eq (l : List InpSlot) (acc : Nat) :
    gpioInpRequired l acc = acc + l.countP inpSlotRequired := by
  induction l generalizing acc with
  | nil => simp [gpioInpRequired]
  | cons s rest ih =>
    rcases hf : s.fn with _ | f
    · have hr : inpSlotRequired s = false := by
        simp [inpSlotRequired, hf]
      simp [gpioInpRequired, hf, ih, List.countP_cons, hr]
    · cases f <;>
        simp [gpioInpRequired, hf, ih, List.countP_cons, inpSlotRequired] <;>
        omega

/-- The counted output slots split into the OPEN ones and the CLOSE ones. -/
theorem countP_outRequired_split (l : List OutSlot) :
    l.countP outSlotRequired =
      l.countP (fun s => s.fn == some OutOp.opn && 2 < s.pin) +
      l.countP (fun s => s.fn == some OutOp.cls && 2 < s.pin) := by
  induction l with
  | nil => rfl
  | cons s rest ih =>
    simp only [List.countP_cons, ih, outSlotRequired]
    by_cases ha : s.fn = some OutOp.opn <;>
      by_cases hb : s.fn = some OutOp.cls <;>
      by_cases hp : 2 < s.pin <;> simp_all <;> omega

/-- The counted input slots split into the OPENED ones and the CLOSED ones. -/
theorem countP_inpRequired_split (l : List InpSlot) :
    l.countP inpSlotRequired =
      l.countP (fun s => s.fn == some InpOp.opened && 2 < s.pin) +
      l.countP (fun s => s.fn == some InpOp.closed && 2 < s.pin) := by
  induction l with
  | nil => rfl
  | cons s rest ih =>
    simp only [List.countP_cons, ih, inpSlotRequired]
    by_cases ha : s.fn = some InpOp.opened <;>
      by_cases hb : s.fn = some InpOp.closed <;>
      by_cases hp : 2 < s.pin <;> simp_all <;> omega

/-- A configuration in which two output slots both map OPEN and two input
slots both map OPENED, all on pins above 2 — CLOSE and CLOSED are unmapped. -/
def cfgDup : Config where
  outDefs := [⟨some OutOp.opn, 3, some true, some 0⟩,
              ⟨some OutOp.opn, 4, some true, some 0⟩]
  inpDefs := [⟨some InpOp.opened, 5, some true⟩,
              ⟨some InpOp.opened, 6, some true⟩]
  roofTimeout := 15

/-- C5 counterexample: `cfgDup` violates both the uniqueness invariant (OPEN
and OPENED each mapped twice) and the mandatory-function invariant (CLOSE and
CLOSED unmapped), yet `gpioPinSet` counts the duplicates, reaches
`required = 4`, and logs no configuration error — the configuration is not
rejected. -/
theorem c5_counterexample :
    specUniqueB cfgDup = false ∧ specMandatoryB cfgDup = false ∧
    (gpioPinSet cfgDup).1 = 4 ∧ (gpioPinSet cfgDup).2 = false := by
  decide

/-- C5 amended: `gpioPinSet` performs no uniqueness check; it merely counts
the slots carrying OPEN/CLOSE relays and OPENED/CLOSED switches with pin
numbers above 2 (duplicates counting multiply) and logs the configuration
error exactly when that count is below 4.  Consequently a configuration whose
four mandatory functions are all mapped on pins above 2 is never rejected,
and — only under the uniqueness invariant — an unrejected configuration does
have all four mandatory functions mapped (on pins above 2). -/
theorem c5_amended (cfg : Config) :
    ((gpioPinSet cfg).2 = true ↔ (gpioPinSet cfg).1 < 4) ∧
    ((gpioPinSet cfg).1 =
      cfg.outDefs.countP outSlotRequired +
        cfg.inpDefs.countP inpSlotRequired) ∧
    (mandatoryPinsB cfg = true → (gpioPinSet cfg).2 = false) ∧
    (specUniqueB cfg = true → (gpioPinSet cfg).2 = false →
      mandatoryPinsB cfg = true) := by
  have hreq : (gpioPinSet cfg).1 =
      cfg.outDefs.countP outSlotRequired +
        cfg.inpDefs.countP inpSlotRequired := by
    simp [gpioPinSet, gpioOutRequired_eq, gpioInpRequired_eq]
  have hsplit : (gpioPinSet cfg).1 =
      cfg.outDefs.countP (fun s => s.fn == some OutOp.opn && 2 < s.pin) +
      cfg.outDefs.countP (fun s => s.fn == some OutOp.cls && 2 < s.pin) +
      (cfg.inpDefs.countP (fun s => s.fn == some InpOp.opened && 2 < s.pin) +
       cfg.inpDefs.countP (fun s => s.fn == some InpOp.closed && 2 < s.pin)) := by
    rw [hreq, countP_outRequired_split, countP_inpRequired_split]
  refine ⟨by simp [gpioPinSet], hreq, ?_, ?_⟩
  · intro hm
    simp only [mandatoryPinsB, Bool.and_eq_true, List.any_eq_true] at hm
    obtain ⟨⟨⟨⟨s1, hs1, hp1⟩, s2, hs2, hp2⟩, s3, hs3, hp3⟩, s4, hs4, hp4⟩ := hm
    have h1 : 0 < cfg.outDefs.countP
        (fun s => s.fn == some OutOp.opn && 2 < s.pin) :=
      List.countP_pos_iff.mpr ⟨s1, hs1, (Bool.and_eq_true ..).symm ▸ hp1⟩
    have h2 : 0 < cfg.outDefs.countP
        (fun s => s.fn == some OutOp.cls && 2 < s.pin) :=
      List.countP_pos_iff.mpr ⟨s2, hs2, (Bool.and_eq_true ..).symm ▸ hp2⟩
    have h3 : 0 < cfg.inpDefs.countP
        (fun s => s.fn == some InpOp.opened && 2 < s.pin) :=
      List.countP_pos_iff.mpr ⟨s3, hs3, (Bool.and_eq_true ..).symm ▸ hp3⟩
    have h4 : 0 < cfg.inpDefs.countP
        (fun s => s.fn == some InpOp.closed && 2 < s.pin) :=
      List.countP_pos_iff.mpr ⟨s4, hs4, (Bool.and_eq_true ..).symm ▸ hp4⟩
    have : ¬ (gpioPinSet cfg).1 < 4 := by omega
    simp [gpioPinSet] at this ⊢
    omega
  · intro hu herr
    have hcount : ¬ (gpioPinSet cfg).1 < 4 := by
      simp [gpioPinSet] at herr ⊢
      omega
    simp only [specUniqueB, Bool.and_eq_true, List.all_eq_true,
      List.mem_cons, List.not_mem_nil, or_false, decide_eq_true_eq] at hu
    have b1 : cfg.outDefs.countP (fun s => s.fn == some OutOp.opn && 2 < s.pin)
        ≤ outCountFn cfg OutOp.opn :=
      List.countP_mono_left (by intro x _ hx; revert hx; simp_all)
    have b2 : cfg.outDefs.countP (fun s => s.fn == some OutOp.cls && 2 < s.pin)
        ≤ outCountFn cfg OutOp.cls :=
      List.countP_mono_left (by intro x _ hx; revert hx; simp_all)
    have b3 : cfg.inpDefs.countP
        (fun s => s.fn == some InpOp.opened && 2 < s.pin)
        ≤ inpCountFn cfg InpOp.opened :=
      List.countP_mono_left (by intro x _ hx; revert hx; simp_all)
    have b4 : cfg.inpDefs.countP
        (fun s => s.fn == some InpOp.closed && 2 < s.pin)
        ≤ inpCountFn cfg InpOp.closed :=
      List.countP_mono_left (by intro x _ hx; revert hx; simp_all)
    have u1 := hu.1 OutOp.opn (by simp)
    have u2 := hu.1 OutOp.cls (by simp)
    have u3 := hu.2 InpOp.opened (by simp)
    have u4 := hu.2 InpOp.closed (by simp)
    have e1 : 0 < cfg.outDefs.countP
        (fun s => s.fn == some OutOp.opn && 2 < s.pin) := by omega
    have e2 : 0 < cfg.outDefs.countP
        (fun s => s.fn == some OutOp.cls && 2 < s.pin) := by omega
    have e3 : 0 < cfg.inpDefs.countP
        (fun s => s.fn == some InpOp.opened && 2 < s.pin) := by omega
    have e4 : 0 < cfg.inpDefs.countP
        (fun s => s.fn == some InpOp.closed && 2 < s.pin) := by omega
    obtain ⟨a1, ha1, hq1⟩ := List.countP_pos_iff.mp e1
    obtain ⟨a2, ha2, hq2⟩ := List.countP_pos_iff.mp e2
    obtain ⟨a3, ha3, hq3⟩ := List.countP_pos_iff.mp e3
    obtain ⟨a4, ha4, hq4⟩ := List.countP_pos_iff.mp e4
    simp only [mandatoryPinsB, Bool.and_eq_true, List.any_eq_true]
    exact ⟨⟨⟨⟨a1, ha1, (Bool.and_eq_true ..) ▸ hq1⟩,
      a2, ha2, (Bool.and_eq_true ..) ▸ hq2⟩, a3, ha3, (Bool.and_eq_true ..) ▸ hq3⟩,
      a4, ha4, (Bool.and_eq_true ..) ▸ hq4⟩

/-- C5 witness: the well-formed standard configuration is unique, has all
mandatory pins, and is not rejected. -/
theorem c5_witness :
    (gpioPinSet cfgStd).2 = false ∧ mandatoryPinsB cfgStd = true := by
  exact ⟨(c5_amended cfgStd).2.2.1 (by decide), by decide⟩

/-- C6: a MOTION_START Move request arriving while the roof is already
opening or closing (and the lock sensor reads inactive and neither terminal
sensor reads set, so the refresh keeps the motion in progress) returns IPS_OK
as a no-op: no relay write is issued and the motion flags are untouched. -/
theorem c6_reentrant (cfg : Config) (env : Env) (mountLocked : Bool)
    (st : DriverState) (dir : DomeDir)
    (hc : st.contactEstablished = true)
    (ho : readRoofSwitch cfg env true InpOp.opened = some false)
    (hcl : readRoofSwitch cfg env true InpOp.closed = some false)
    (hlk : readRoofSwitch cfg env true InpOp.locked = some false)
    (hmov : st.roofOpening = true ∨ st.roofClosing = true) :
    (Move cfg env mountLocked st dir true).1 = IPS.ok ∧
    (Move cfg env mountLocked st dir true).2.1 = [] ∧
    (Move cfg env mountLocked st dir true).2.2.roofOpening = st.roofOpening ∧
    (Move cfg env mountLocked st dir true).2.2.roofClosing = st.roofClosing := by
  have hu := updateRoofStatus_eq cfg env st
  rw [hc] at hu
  rcases hmov with h | h
  · simp [Move, hu, rsv, ho, hcl, hlk, roofOpeningAfter, roofClosingAfter, h]
  · cases hop : st.roofOpening <;>
      simp [Move, hu, rsv, ho, hcl, hlk, roofOpeningAfter, roofClosingAfter,
        h, hop]

/-- C6 witness: an open request while the roof is closing is accepted as an
already-in-progress no-op with no write. -/
theorem c6_witness :
    (Move cfgStd envAllOff false { initState with roofClosing := true }
        DomeDir.cw true).1 = IPS.ok ∧
    (Move cfgStd envAllOff false { initState with roofClosing := true }
        DomeDir.cw true).2.1 = [] := by
  have h := c6_reentrant cfgStd envAllOff false
    { initState with roofClosing := true } DomeDir.cw rfl (by decide)
    (by decide) (by decide) (Or.inr rfl)
  exact ⟨h.1, h.2.1⟩

/-- C7: a connected timer tick during a busy dome motion (direction `cw`)
whose time budget has expired (`timeleft ≤ 0`) while the corresponding
terminal sensor still reads unset forces the dome state to Idle, clears the
matching in-motion flag, records the timeout direction (EXPIRED_OPEN for
opening, EXPIRED_CLOSE for closing), and the next status refresh shows the
matching terminal light and the summary as IPS_ALERT. -/
theorem c7_timeout (cfg : Config) (env : Env) (st : DriverState)
    (timeleft : Int) (cw : Bool)
    (hc : st.contactEstablished = true)
    (ho : readRoofSwitch cfg env true InpOp.opened = some false)
    (hcl : readRoofSwitch cfg env true InpOp.closed = some false)
    (hlk : readRoofSwitch cfg env true InpOp.locked = some false)
    (hbusy : st.domeMotionBusy = true)
    (hmr : 0 ≤ st.motionRequest)
    (hcw : st.domeMotionCW = cw) (hccw : st.domeMotionCCW = !cw)
    (hfl : (if cw then st.roofClosing else st.roofOpening) = false)
    (htl : timeleft ≤ 0) :
    (TimerHit cfg env st timeleft true).1.domeState = DomeSt.idle ∧
    (if cw then (TimerHit cfg env st timeleft true).1.roofOpening
     else (TimerHit cfg env st timeleft true).1.roofClosing) = false ∧
    (TimerHit cfg env st timeleft true).1.roofTimedOut =
      (if cw then EXPIRED_OPEN else EXPIRED_CLOSE) ∧
    (if cw then
      (updateRoofStatus cfg env (TimerHit cfg env st timeleft true).1).2.1.openedL
     else
      (updateRoofStatus cfg env (TimerHit cfg env st timeleft true).1).2.1.closedL)
      = IPS.alert ∧
    (updateRoofStatus cfg env
        (TimerHit cfg env st timeleft true).1).2.1.summary = IPS.alert := by
  have hu := updateRoofStatus_eq cfg env st
  rw [hc] at hu
  have hnneg : ¬ st.motionRequest < 0 := by omega
  cases cw <;>
    simp only [Bool.not_false, Bool.not_true] at hccw <;>
    simp only [if_true, Bool.false_eq_true, if_false] at hfl <;>
    by_cases hcomm : MAX_CNTRL_COM_ERR < st.communicationErrors <;>
    simp [TimerHit, hu, rsv, ho, hcl, hlk, roofOpeningAfter, roofClosingAfter,
      hbusy, hnneg, hcw, hccw, hfl, htl, hcomm, reconnectReset,
      updateRoofStatus_eq, hc, statusLights, limitStep, EXPIRED_OPEN,
      EXPIRED_CLOSE]

/-- Driver state in the middle of an opening motion session: dome motion
busy in the CW (open) direction, 15 s budget, `roofOpening` set. -/
def stBusyOpen : DriverState :=
  { initState with
      domeMotionBusy := true, domeMotionCW := true, motionRequest := 15,
      roofOpening := true }

/-- C7 witness: a busy opening motion on an expired tick with no sensors set
times out as EXPIRED_OPEN and the next refresh alerts the opened light. -/
theorem c7_witness :
    (TimerHit cfgStd envAllOff stBusyOpen (-1) true).1.roofTimedOut
      = EXPIRED_OPEN ∧
    (updateRoofStatus cfgStd envAllOff
        (TimerHit cfgStd envAllOff stBusyOpen (-1) true).1).2.1.summary
      = IPS.alert := by
  have h := c7_timeout cfgStd envAllOff stBusyOpen (-1) true rfl (by decide)
    (by decide) (by decide) rfl (by decide) rfl rfl rfl (by decide)
  exact ⟨h.2.2.1, h.2.2.2.2⟩

/-- Invariant maintained across a run of consecutive indeterminate ticks
starting from a throttle counter of 0: contact stays up, the motion flags stay
clear, and after `k` ticks the counter is `min k 12`. -/
theorem statusIter_indet (cfg : Config) (env : Env)
    (ho : readRoofSwitch cfg env true InpOp.opened = some false)
    (hcl : readRoofSwitch cfg env true InpOp.closed = some false)
    (s0 : DriverState) (hc : s0.contactEstablished = true)
    (hop : s0.roofOpening = false) (hcls : s0.roofClosing = false)
    (hlm : s0.limitMsg = 0) :
    ∀ k : Nat,
      (statusIter cfg env k s0).contactEstablished = true ∧
      (statusIter cfg env k s0).roofOpening = false ∧
      (statusIter cfg env k s0).roofClosing = false ∧
      (statusIter cfg env k s0).limitMsg = min k 12 := by
  intro k
  induction k with
  | zero => exact ⟨hc, hop, hcls, by simp [statusIter, hlm]⟩
  | succ n ih =>
    obtain ⟨ihc, iho, ihcl, ihm⟩ := ih
    have hu := updateRoofStatus_eq cfg env (statusIter cfg env n s0)
    rw [ihc] at hu
    have hind : indetCond cfg env (statusIter cfg env n s0) = true := by
      simp [indetCond, rsv, ihc, ho, hcl, iho, ihcl]
    have hstep : statusIter cfg env (n + 1) s0 =
        (updateRoofStatus cfg env (statusIter cfg env n s0)).1 := rfl
    rw [hstep, hu]
    refine ⟨rfl, ?_, ?_, ?_⟩
    · simp [roofOpeningAfter, rsv, ho, hcl, iho]
    · simp [roofClosingAfter, rsv, ho, hcl, ihcl]
    · simp only [hind, ihm, limitStep]
      split_ifs <;> simp <;> omega

/-- C8: starting from a zero throttle counter, along a run of consecutive
status ticks on which the indeterminate condition holds (neither terminal
sensor reads set, no motion in progress), tick `k+1` emits a warning for the
first 11 occurrences (`k+1 ≤ 11`), escalates to exactly one error on
occurrence 12, and is silent on every later occurrence; and any tick on which
the indeterminate condition does not hold resets the counter to 0. -/
theorem c8_throttle (cfg : Config) (env : Env)
    (ho : readRoofSwitch cfg env true InpOp.opened = some false)
    (hcl : readRoofSwitch cfg env true InpOp.closed = some false)
    (s0 : DriverState) (hc : s0.contactEstablished = true)
    (hop : s0.roofOpening = false) (hcls : s0.roofClosing = false)
    (hlm : s0.limitMsg = 0) :
    (∀ k : Nat,
      (updateRoofStatus cfg env (statusIter cfg env k s0)).2.2.1 =
        (if k + 1 ≤ 11 then MsgK.warn
         else if k + 1 = 12 then MsgK.escalate
         else MsgK.silent)) ∧
    (∀ st : DriverState, indetCond cfg env st = false →
      (updateRoofStatus cfg env st).1.limitMsg = 0) := by
  constructor
  · intro k
    obtain ⟨ihc, iho, ihcl, ihm⟩ :=
      statusIter_indet cfg env ho hcl s0 hc hop hcls hlm k
    have hu := updateRoofStatus_eq cfg env (statusIter cfg env k s0)
    rw [ihc] at hu
    have hind : indetCond cfg env (statusIter cfg env k s0) = true := by
      simp [indetCond, rsv, ihc, ho, hcl, iho, ihcl]
    rw [hu]
    simp only [hind, ihm, limitStep]
    by_cases h1 : k + 1 ≤ 11
    · have : min k 12 ≤ 10 := by omega
      simp [this, h1]
    · by_cases h2 : k + 1 = 12
      · have hm1 : ¬ min k 12 ≤ 10 := by omega
        have hm2 : min k 12 = 11 := by omega
        simp [hm1, hm2, h1, h2]
      · have hm1 : ¬ min k 12 ≤ 10 := by omega
        have hm2 : ¬ min k 12 = 11 := by omega
        simp [hm1, hm2, h1, h2]
  · intro st hind
    rw [updateRoofStatus_eq]
    simp [limitStep, hind]

/-- C8 witness: with all pins reading low from the post-connect state, tick 1
warns, tick 12 escalates, tick 13 is silent, and a tick with a motion flag set
resets the counter. -/
theorem c8_witness :
    (updateRoofStatus cfgStd envAllOff (statusIter cfgStd envAllOff 0
        initState)).2.2.1 = MsgK.warn ∧
    (updateRoofStatus cfgStd envAllOff (statusIter cfgStd envAllOff 11
        initState)).2.2.1 = MsgK.escalate ∧
    (updateRoofStatus cfgStd envAllOff (statusIter cfgStd envAllOff 12
        initState)).2.2.1 = MsgK.silent ∧
    (updateRoofStatus cfgStd envAllOff stBusyOpen).1.limitMsg = 0 := by
  have h := c8_throttle cfgStd envAllOff (by decide) (by decide) initState
    rfl rfl rfl rfl
  refine ⟨by simpa using h.1 0, by simpa using h.1 11, by simpa using h.1 12,
    h.2 stBusyOpen (by decide)⟩

/-- C9 counterexample: with both terminal sensors reading true while unlocked,
`updateRoofStatus` does emit the contradiction warning, but reports no
terminal state at all — the opened and closed lights and the summary all stay
IPS_IDLE, refuting the claim that the snapshot reports the terminal state
chosen by the branch priority order in every both-true derivation. -/
theorem c9_counterexample :
    (updateRoofStatus cfgStd envBothOn initState).2.2.2 = true ∧
    (updateRoofStatus cfgStd envBothOn initState).2.1.openedL = IPS.idle ∧
    (updateRoofStatus cfgStd envBothOn initState).2.1.closedL = IPS.idle ∧
    (updateRoofStatus cfgStd envBothOn initState).2.1.summary = IPS.idle := by
  decide

/-- C9 amended: when both terminal sensors read true the contradiction warning
is always emitted; if additionally the lock sensor reads active the snapshot
reports the closed-confirmed terminal state (closed light IPS_OK, lock light
IPS_ALERT, summary IPS_OK), but if unlocked no terminal state is reported (all
of opened, closed and summary stay IPS_IDLE).  With opened true and closed
false while unlocked, the snapshot reports the confirmed opened state with no
alert on any light. -/
theorem c9_amended (cfg : Config) (env : Env) (st : DriverState)
    (hc : st.contactEstablished = true) :
    (readRoofSwitch cfg env true InpOp.opened = some true →
     readRoofSwitch cfg env true InpOp.closed = some true →
      (updateRoofStatus cfg env st).2.2.2 = true) ∧
    (readRoofSwitch cfg env true InpOp.opened = some true →
     readRoofSwitch cfg env true InpOp.closed = some true →
     readRoofSwitch cfg env true InpOp.locked = some true →
      (updateRoofStatus cfg env st).2.1.closedL = IPS.ok ∧
      (updateRoofStatus cfg env st).2.1.lockedL = IPS.alert ∧
      (updateRoofStatus cfg env st).2.1.summary = IPS.ok) ∧
    (readRoofSwitch cfg env true InpOp.opened = some true →
     readRoofSwitch cfg env true InpOp.closed = some true →
     readRoofSwitch cfg env true InpOp.locked = some false →
      (updateRoofStatus cfg env st).2.1.openedL = IPS.idle ∧
      (updateRoofStatus cfg env st).2.1.closedL = IPS.idle ∧
      (updateRoofStatus cfg env st).2.1.summary = IPS.idle) ∧
    (readRoofSwitch cfg env true InpOp.opened = some true →
     readRoofSwitch cfg env true InpOp.closed = some false →
     readRoofSwitch cfg env true InpOp.locked = some false →
      (updateRoofStatus cfg env st).2.1.openedL = IPS.ok ∧
      (updateRoofStatus cfg env st).2.1.summary = IPS.ok ∧
      (updateRoofStatus cfg env st).2.1.closedL = IPS.idle ∧
      (updateRoofStatus cfg env st).2.1.movingL = IPS.idle ∧
      (updateRoofStatus cfg env st).2.1.lockedL = IPS.idle ∧
      (updateRoofStatus cfg env st).2.1.auxL ≠ IPS.alert) := by
  have hu := updateRoofStatus_eq cfg env st
  rw [hc] at hu
  refine ⟨?_, ?_, ?_, ?_⟩ <;> intro ho hcl <;> try intro hlk
  · simp [hu, rsv, ho, hcl]
  · simp [hu, rsv, ho, hcl, hlk, statusLights]
  · simp [hu, rsv, ho, hcl, hlk, statusLights]
  · rcases ha : readRoofSwitch cfg env true InpOp.auxState with _ | b
    · simp [hu, rsv, ho, hcl, hlk, statusLights, ha]
    · cases b <;> simp [hu, rsv, ho, hcl, hlk, statusLights, ha]

/-- Environment where both terminal sensor pins and the lock pin read high. -/
def envBothLock : Env where
  readPin := fun p => if p = 5 ∨ p = 6 ∨ p = 7 then some true else some false
  writeOk := fun _ _ => true

/-- Environment where only the opened sensor pin (5) reads high. -/
def envOpenOnly : Env where
  readPin := fun p => if p = 5 then some true else some false
  writeOk := fun _ _ => true

/-- C9 witness: both-true while locked reports closed-confirmed with the
contradiction warning, and opened-only while idle and unlocked reports the
confirmed opened state with an OK summary. -/
theorem c9_witness :
    (updateRoofStatus cfgStd envBothLock initState).2.2.2 = true ∧
    (updateRoofStatus cfgStd envBothLock initState).2.1.closedL = IPS.ok ∧
    (updateRoofStatus cfgStd envBothLock initState).2.1.lockedL = IPS.alert ∧
    (updateRoofStatus cfgStd envOpenOnly initState).2.1.openedL = IPS.ok ∧
    (updateRoofStatus cfgStd envOpenOnly initState).2.1.summary = IPS.ok := by
  have h1 := (c9_amended cfgStd envBothLock initState rfl).1 (by decide)
    (by decide)
  have h2 := (c9_amended cfgStd envBothLock initState rfl).2.1 (by decide)
    (by decide) (by decide)
  have h3 := (c9_amended cfgStd envOpenOnly initState rfl).2.2.2 (by decide)
    (by decide) (by decide)
  exact ⟨h1, h2.1, h2.2.1, h3.1, h3.2.1⟩

/-- `updateRoofStatus` preserves "not both motion flags set". -/
theorem updateRoofStatus_no_both (cfg : Config) (env : Env) (st : DriverState)
    (h : (st.roofOpening && st.roofClosing) = false) :
    ((updateRoofStatus cfg env st).1.roofOpening &&
     (updateRoofStatus cfg env st).1.roofClosing) = false := by
  rw [updateRoofStatus_eq]
  simp only [roofOpeningAfter, roofClosingAfter]
  split_ifs <;> simp_all

/-- `pushRoofButton` preserves "not both motion flags set". -/
theorem pushRoofButton_no_both (cfg : Config) (env : Env) (st : DriverState)
    (button : OutOp) (switchOn ignoreLock : Bool)
    (h : (st.roofOpening && st.roofClosing) = false) :
    ((pushRoofButton cfg env st button switchOn ignoreLock).2.2.roofOpening &&
     (pushRoofButton cfg env st button switchOn
        ignoreLock).2.2.roofClosing) = false := by
  simp [pushRoofButton_opening, pushRoofButton_closing, h]

/-- `Move` preserves "not both motion flags set". -/
theorem Move_no_both (cfg : Config) (env : Env) (mountLocked : Bool)
    (st : DriverState) (dir : DomeDir) (isStart : Bool)
    (h : (st.roofOpening && st.roofClosing) = false) :
    ((Move cfg env mountLocked st dir isStart).2.2.roofOpening &&
     (Move cfg env mountLocked st dir isStart).2.2.roofClosing) = false := by
  have h1 := updateRoofStatus_no_both cfg env st h
  simp only [Move]
  repeat' split
  all_goals
    simp_all [setParked, roofOpen, roofClose, pushRoofButton_opening,
      pushRoofButton_closing]

/-- `Abort` preserves "not both motion flags set". -/
theorem Abort_no_both (cfg : Config) (env : Env) (st : DriverState)
    (h : (st.roofOpening && st.roofClosing) = false) :
    ((Abort cfg env st).2.2.roofOpening &&
     (Abort cfg env st).2.2.roofClosing) = false := by
  have h1 := updateRoofStatus_no_both cfg env st h
  simp only [Abort]
  repeat' split
  all_goals
    simp_all [roofAbort, pushRoofButton_opening, pushRoofButton_closing]

/-- `TimerHit` preserves "not both motion flags set". -/
theorem TimerHit_no_both (cfg : Config) (env : Env) (st : DriverState)
    (timeleft : Int) (connected : Bool)
    (h : (st.roofOpening && st.roofClosing) = false) :
    ((TimerHit cfg env st timeleft connected).1.roofOpening &&
     (TimerHit cfg env st timeleft connected).1.roofClosing) = false := by
  have h1 := updateRoofStatus_no_both cfg env st h
  cases connected
  · simpa [TimerHit] using h
  · simp only [TimerHit]
    repeat' split
    all_goals simp_all [setParked, reconnectReset]

/-- C10: the in-progress-opening and in-progress-closing flags are never
simultaneously true in any reachable driver state — every entry point either
sets one flag while clearing the other or only clears them. -/
theorem c10_flags_invariant (st : DriverState) (h : Reachable st) :
    ¬ (st.roofOpening = true ∧ st.roofClosing = true) := by
  have key : (st.roofOpening && st.roofClosing) = false := by
    induction h with
    | init => rfl
    | status cfg env st' _ ih => exact updateRoofStatus_no_both cfg env st' ih
    | move cfg env ml st' dir isStart _ ih =>
      exact Move_no_both cfg env ml st' dir isStart ih
    | abortReq cfg env st' _ ih => exact Abort_no_both cfg env st' ih
    | timer cfg env st' tl conn _ ih =>
      exact TimerHit_no_both cfg env st' tl conn ih
    | push cfg env st' b son il _ ih =>
      exact pushRoofButton_no_both cfg env st' b son il ih
  rintro ⟨h1, h2⟩
  rw [h1, h2] at key
  simp at key

/-- C10 witness: the initial state is reachable and satisfies the invariant. -/
theorem c10_witness :
    Reachable initState ∧
    ¬ (initState.roofOpening = true ∧ initState.roofClosing = true) :=
  ⟨Reachable.init, c10_flags_invariant initState Reachable.init⟩

end RollOffIno
